import Mathlib

/-!
Verification development for the OpenLyst AUR package updater
(`update_aur_packages.py`).  The Python source is shallowly embedded:
pure functions become Lean functions over `String`/`List Char`/`Nat`;
the script's effects (HTTP fetch, artifact download, git subprocesses,
file reads) are supplied by an explicit `World` oracle, and the events
the script would perform are recorded in a trace so that claims about
"operation X is never invoked" can be stated.  Python exceptions that
the source does not catch are modelled with `Except PyErr`.
-/

namespace AurUpdater

/-- Single-quote character, used by the recipe templates. -/
def sq : String := String.singleton (Char.ofNat 39)

/-- Python `str.strip` whitespace set: space, tab, newline, carriage
return, vertical tab, form feed. -/
def isPyWs (c : Char) : Bool :=
  c = ' ' || c = '\t' || c = '\n' || c = '\r' ||
  c = Char.ofNat 11 || c = Char.ofNat 12

/-- Left strip, as in Python `str.lstrip`. -/
def pyLStrip (cs : List Char) : List Char := cs.dropWhile isPyWs

/-- Right strip, as in Python `str.rstrip`. -/
def pyRStrip (cs : List Char) : List Char :=
  (cs.reverse.dropWhile isPyWs).reverse

/-- Python `str.strip` on character lists. -/
def pyStripChars (cs : List Char) : List Char := pyRStrip (pyLStrip cs)

/-- Python `str.strip` on strings. -/
def pyStripStr (s : String) : String := String.mk (pyStripChars s.data)

/-- Python `str.split(sep)` for a one-character separator: splits at
every occurrence of the separator. -/
def splitOnChar (sep : Char) : List Char → List (List Char)
  | [] => [[]]
  | c :: rest =>
    let r := splitOnChar sep rest
    if c = sep then [] :: r
    else
      match r with
      | h :: t => (c :: h) :: t
      | [] => [[c]]

/-- Substring test on character lists (used to state facts about the
rendered artifacts). -/
def containsSub (hay needle : List Char) : Bool :=
  match hay with
  | [] => needle.isEmpty
  | _ :: rest => needle.isPrefixOf hay || containsSub rest needle

/-! ## Python/JSON value model

`Json.null` plays the role of Python `None` (the JSON decoder maps
`null` to `None`, and `dict.get` with no default returns `None`). -/

inductive Json where
  | null
  | bool (b : Bool)
  | num (n : Int)
  | str (s : String)
  | arr (xs : List Json)
  | obj (kvs : List (String × Json))
deriving Repr

/-- Python truthiness of the modelled values. -/
def pyTruthy : Json → Bool
  | .null => false
  | .bool b => b
  | .num n => n ≠ 0
  | .str s => s ≠ ""
  | .arr xs => !xs.isEmpty
  | .obj kvs => !kvs.isEmpty

/-- Python exceptions the embedded code can raise without catching. -/
inductive PyErr where
  | attributeError
deriving DecidableEq, Repr

mutual
/-- Python `repr` of the modelled values (string escaping inside
`repr` is not modelled; theorems only exercise it on tame values). -/
def pyRepr : Json → String
  | .null => "None"
  | .bool b => cond b "True" "False"
  | .num n => toString n
  | .str s => sq ++ s ++ sq
  | .arr xs => "[" ++ String.intercalate ", " (pyReprList xs) ++ "]"
  | .obj kvs => "\x7b" ++ String.intercalate ", " (pyReprPairs kvs) ++ "\x7d"

def pyReprList : List Json → List String
  | [] => []
  | j :: js => pyRepr j :: pyReprList js

def pyReprPairs : List (String × Json) → List String
  | [] => []
  | kv :: rest => (sq ++ kv.1 ++ sq ++ ": " ++ pyRepr kv.2) :: pyReprPairs rest
end

/-- Python `str()` (f-string interpolation) of the modelled values. -/
def pyStr : Json → String
  | .null => "None"
  | .bool b => cond b "True" "False"
  | .num n => toString n
  | .str s => s
  | .arr xs => pyRepr (.arr xs)
  | .obj kvs => pyRepr (.obj kvs)

/-- Python `d.get(key, dflt)`: on a dict, look the key up (first
binding wins) and fall back to the default; on any non-dict value the
attribute access `.get` raises `AttributeError`. -/
def dict_get (j : Json) (key : String) (dflt : Json) : Except PyErr Json :=
  match j with
  | .obj kvs => .ok ((kvs.lookup key).getD dflt)
  | _ => .error .attributeError

/-! ## SHA-256 (`hashlib.sha256` / `hexdigest`)

Machine words are `Nat` reduced mod `2 ^ 32` where overflow matters. -/

def M32 : Nat := 2 ^ 32

def add32 (a b : Nat) : Nat := (a + b) % M32

def rotr32 (x n : Nat) : Nat := ((x >>> n) ||| (x <<< (32 - n))) % M32

def bsig0 (x : Nat) : Nat := rotr32 x 2 ^^^ rotr32 x 13 ^^^ rotr32 x 22
def bsig1 (x : Nat) : Nat := rotr32 x 6 ^^^ rotr32 x 11 ^^^ rotr32 x 25
def ssig0 (x : Nat) : Nat := rotr32 x 7 ^^^ rotr32 x 18 ^^^ (x >>> 3)
def ssig1 (x : Nat) : Nat := rotr32 x 17 ^^^ rotr32 x 19 ^^^ (x >>> 10)

def shaK : List Nat :=
  [1116352408, 1899447441, 3049323471, 3921009573,
   961987163, 1508970993, 2453635748, 2870763221,
   3624381080, 310598401, 607225278, 1426881987,
   1925078388, 2162078206, 2614888103, 3248222580,
   3835390401, 4022224774, 264347078, 604807628,
   770255983, 1249150122, 1555081692, 1996064986,
   2554220882, 2821834349, 2952996808, 3210313671,
   3336571891, 3584528711, 113926993, 338241895,
   666307205, 773529912, 1294757372, 1396182291,
   1695183700, 1986661051, 2177026350, 2456956037,
   2730485921, 2820302411, 3259730800, 3345764771,
   3516065817, 3600352804, 4094571909, 275423344,
   430227734, 506948616, 659060556, 883997877,
   958139571, 1322822218, 1537002063, 1747873779,
   1955562222, 2024104815, 2227730452, 2361852424,
   2428436474, 2756734187, 3204031479, 3329325298]

def shaH0 : List Nat :=
  [1779033703, 3144134277, 1013904242, 2773480762,
   1359893119, 2600822924, 528734635, 1541459225]

/-- `k` big-endian bytes of `n`. -/
def beBytes (k n : Nat) : List Nat :=
  (List.range k).map (fun i => (n >>> (8 * (k - 1 - i))) % 256)

/-- SHA-256 message padding: `0x80`, zeros to 56 mod 64, 64-bit
big-endian bit length. -/
def shaPad (msg : List Nat) : List Nat :=
  let L := msg.length
  msg ++ [0x80] ++ List.replicate ((119 - L % 64) % 64) 0 ++ beBytes 8 (8 * L)

/-- Bytes to 32-bit big-endian words. -/
def toWords : List Nat → List Nat
  | b0 :: b1 :: b2 :: b3 :: rest =>
    (((b0 * 256 + b1) * 256 + b2) * 256 + b3) :: toWords rest
  | _ => []

/-- Split a word list into blocks of 16 words (padded input is always
an exact multiple of 16 words; a ragged tail is kept as-is). -/
def chunks16 : List Nat → List (List Nat)
  | [] => []
  | w0 :: w1 :: w2 :: w3 :: w4 :: w5 :: w6 :: w7 ::
    w8 :: w9 :: w10 :: w11 :: w12 :: w13 :: w14 :: w15 :: rest =>
    [w0, w1, w2, w3, w4, w5, w6, w7, w8, w9, w10, w11, w12, w13, w14, w15] ::
      chunks16 rest
  | ws => [ws]

/-- Extend a 16-word block to the 64-word message schedule. -/
def shaExtend (block : Array Nat) : Array Nat :=
  (List.range 48).foldl
    (fun w i =>
      let t := i + 16
      w.push (add32 (add32 (ssig1 (w.getD (t - 2) 0)) (w.getD (t - 7) 0))
                    (add32 (ssig0 (w.getD (t - 15) 0)) (w.getD (t - 16) 0))))
    block

/-- One compression round-sequence over a 16-word block. -/
def shaCompress (hs : List Nat) (block : List Nat) : List Nat :=
  let w := shaExtend block.toArray
  let a0 := hs.getD 0 0
  let b0 := hs.getD 1 0
  let c0 := hs.getD 2 0
  let d0 := hs.getD 3 0
  let e0 := hs.getD 4 0
  let f0 := hs.getD 5 0
  let g0 := hs.getD 6 0
  let h0 := hs.getD 7 0
  let step := fun (s : Nat × Nat × Nat × Nat × Nat × Nat × Nat × Nat) (i : Nat) =>
    let (a, b, c, d, e, f, g, h) := s
    let ch := (e &&& f) ^^^ ((e ^^^ (M32 - 1)) &&& g)
    let maj := (a &&& b) ^^^ (a &&& c) ^^^ (b &&& c)
    let t1 := add32 (add32 (add32 h (bsig1 e)) (add32 ch (shaK.getD i 0))) (w.getD i 0)
    let t2 := add32 (bsig0 a) maj
    (add32 t1 t2, a, b, c, add32 d t1, e, f, g)
  let r := (List.range 64).foldl step (a0, b0, c0, d0, e0, f0, g0, h0)
  [add32 a0 r.1, add32 b0 r.2.1, add32 c0 r.2.2.1, add32 d0 r.2.2.2.1,
   add32 e0 r.2.2.2.2.1, add32 f0 r.2.2.2.2.2.1,
   add32 g0 r.2.2.2.2.2.2.1, add32 h0 r.2.2.2.2.2.2.2]

/-- SHA-256 of a byte list, as the eight 32-bit hash words. -/
def sha256Words (msg : List Nat) : List Nat :=
  (chunks16 (toWords (shaPad msg))).foldl shaCompress shaH0

/-- Lowercase hex character of a nibble (as Python `hexdigest`). -/
def hexChar (n : Nat) : Char := Char.ofNat (if n < 10 then 48 + n else 87 + n)

/-- Python `sha256(bytes).hexdigest()`: 64 lowercase hex characters. -/
def sha256_hexdigest (msg : List Nat) : String :=
  let hv := (sha256Words msg).foldl (fun acc h => acc * M32 + h) 0
  String.mk ((List.range 64).map (fun i => hexChar ((hv >>> (4 * (63 - i))) % 16)))

/-- Python `==` between the current AUR version (`str` or `None`) and
the upstream version value (arbitrary JSON).  `None == None` is true,
`str == str` compares contents, any cross-type comparison is false. -/
def pyEq (a : Option String) (b : Json) : Bool :=
  match a, b with
  | none, .null => true
  | some s, .str t => s == t
  | _, _ => false

/-! ## Package registry (`AURPackage`, `AUR_PACKAGES`) -/

structure AURPackage where
  name : String
  slug : String
  description : String
  license : String
  url : String
  depends : List String
  conflicts : List String
  provides : List String
deriving DecidableEq, Repr

def AURPackage.git_url (p : AURPackage) : String :=
  "ssh://aur@aur.archlinux.org/" ++ p.name ++ ".git"

/-- Registry entry for `klit-bin` (fields in dataclass order: name,
slug, description, license, url, depends, conflicts, provides). -/
def klitPackage : AURPackage :=
  ⟨"klit-bin", "klit",
   "The successor to BaoBao. A modern, privacy-focused client for the e621 community. Built with user experience and data protection as top priorities.",
   "GPL3", "https://gitlab.com/Openlyst/klit",
   ["gtk3"], ["klit"], ["klit"]⟩

/-- Registry entry for `doudou-bin`. -/
def doudouPackage : AURPackage :=
  ⟨"doudou-bin", "doudou",
   "Stream your music with ease and style. Source: https://gitlab.com/Openlyst/doudou",
   "GPL3", "https://gitlab.com/Openlyst/doudou",
   ["gtk3", "libmpv.so", "mpv"], ["doudou"], ["doudou"]⟩

/-- Registry entry for `finar-bin`. -/
def finarPackage : AURPackage :=
  ⟨"finar-bin", "finar",
   "A beautiful, modern multi-platform Jellyfin client built with Flutter. Source: https://gitlab.com/Openlyst/finar",
   "AGPL3", "https://gitlab.com/Openlyst/finar",
   ["gtk3", "libmpv.so", "mpv"], ["finar"], ["finar"]⟩

/-- The fixed registry, in source (dict insertion) order. -/
def AUR_PACKAGES : List (String × AURPackage) :=
  [("klit-bin", klitPackage),
   ("doudou-bin", doudouPackage),
   ("finar-bin", finarPackage)]

/-! ## Descriptor rendering (`generate_pkgbuild`, `generate_srcinfo`)

The Python f-string templates are embedded as string concatenations;
`\x7b`/`\x7d` denote literal braces and `sq` a literal single quote. -/

/-- Python `s.replace(pat, rep)`: replace all non-overlapping
occurrences, left to right.  Fuel-based structural recursion (fuel
bounds the number of steps; one step consumes at least one character).
Callers only use non-empty patterns; an empty pattern leaves the
string unchanged here. -/
def pyReplaceAux (pat rep : List Char) : Nat → List Char → List Char
  | _, [] => []
  | 0, cs => cs
  | fuel + 1, c :: rest =>
    if pat ≠ [] && pat.isPrefixOf (c :: rest) then
      rep ++ pyReplaceAux pat rep fuel (List.drop (pat.length - 1) rest)
    else c :: pyReplaceAux pat rep fuel rest

def pyReplace (s pat rep : String) : String :=
  String.mk (pyReplaceAux pat.data rep.data s.data.length s.data)

/-- Python `str.capitalize`: first character upper, rest lower. -/
def pyCapitalize (s : String) : String :=
  match s.data with
  | [] => ""
  | c :: rest => String.mk (c.toUpper :: rest.map Char.toLower)

/-- Python `sep.join(xs)`. -/
def pyJoin (sep : String) : List String → String
  | [] => ""
  | [x] => x
  | x :: rest => x ++ sep ++ pyJoin sep rest

/-- Accumulation of a `for` loop doing `acc += piece`. -/
def pyConcat : List String → String
  | [] => ""
  | x :: rest => x ++ pyConcat rest

def generate_pkgbuild (package : AURPackage)
    (version download_url sha256 : String) : String :=
  let app_name := pyReplace package.name "-bin" ""
  let depends_str :=
    pyJoin " " (package.depends.map (fun dep => sq ++ dep ++ sq))
  let conflicts_str :=
    pyJoin " " (package.conflicts.map (fun dep => sq ++ dep ++ sq))
  let provides_str :=
    pyJoin " " (package.provides.map (fun dep => sq ++ dep ++ sq))
  "# Maintainer: HttpAnimations <httpanimations@proton.me>\n" ++
  "# Auto-generated by OpenLyst AUR Updater\n" ++
  "\n" ++
  "pkgname=" ++ package.name ++ "\n" ++
  "pkgver=" ++ version ++ "\n" ++
  "pkgrel=1\n" ++
  "pkgdesc=\"" ++ package.description ++ "\"\n" ++
  "arch=(" ++ sq ++ "x86_64" ++ sq ++ ")\n" ++
  "url=\"" ++ package.url ++ "\"\n" ++
  "license=(" ++ sq ++ package.license ++ sq ++ ")\n" ++
  "depends=(" ++ depends_str ++ ")\n" ++
  "conflicts=(" ++ conflicts_str ++ ")\n" ++
  "provides=(" ++ provides_str ++ ")\n" ++
  "source=(\"$\x7bpkgname\x7d-$\x7bpkgver\x7d.zip::" ++ download_url ++ "\")\n" ++
  "sha256sums=(" ++ sq ++ sha256 ++ sq ++ ")\n" ++
  "options=(" ++ sq ++ "!strip" ++ sq ++ ")\n" ++
  "\n" ++
  "package() \x7b\n" ++
  "    cd \"$srcdir\"\n" ++
  "    \n" ++
  "    # Find the extracted directory (handles different naming patterns)\n" ++
  "    local extracted_dir\n" ++
  "    extracted_dir=$(find . -maxdepth 1 -type d -name \"" ++ app_name ++ "*\" | head -1)\n" ++
  "    \n" ++
  "    if [ -z \"$extracted_dir\" ]; then\n" ++
  "        # Fallback: try to find any directory that" ++ sq ++ "s not current/parent\n" ++
  "        extracted_dir=$(find . -maxdepth 1 -type d ! -name \".\" ! -name \"..\" | head -1)\n" ++
  "    fi\n" ++
  "    \n" ++
  "    if [ -z \"$extracted_dir\" ]; then\n" ++
  "        echo \"Error: Could not find extracted directory\"\n" ++
  "        return 1\n" ++
  "    fi\n" ++
  "    \n" ++
  "    # Install the application\n" ++
  "    install -dm755 \"$pkgdir/opt/" ++ app_name ++ "\"\n" ++
  "    cp -r \"$extracted_dir\"/* \"$pkgdir/opt/" ++ app_name ++ "/\"\n" ++
  "    \n" ++
  "    # Make the main executable\n" ++
  "    chmod +x \"$pkgdir/opt/" ++ app_name ++ "/" ++ app_name ++ "\"\n" ++
  "    \n" ++
  "    # Create symlink in /usr/bin\n" ++
  "    install -dm755 \"$pkgdir/usr/bin\"\n" ++
  "    ln -sf \"/opt/" ++ app_name ++ "/" ++ app_name ++ "\" \"$pkgdir/usr/bin/" ++ app_name ++ "\"\n" ++
  "    \n" ++
  "    # Install desktop file if it exists\n" ++
  "    if [ -f \"$extracted_dir/" ++ app_name ++ ".desktop\" ]; then\n" ++
  "        install -Dm644 \"$extracted_dir/" ++ app_name ++ ".desktop\" \"$pkgdir/usr/share/applications/" ++ app_name ++ ".desktop\"\n" ++
  "    else\n" ++
  "        # Create a basic desktop file\n" ++
  "        install -dm755 \"$pkgdir/usr/share/applications\"\n" ++
  "        cat > \"$pkgdir/usr/share/applications/" ++ app_name ++ ".desktop\" << EOF\n" ++
  "[Desktop Entry]\n" ++
  "Type=Application\n" ++
  "Name=" ++ pyCapitalize app_name ++ "\n" ++
  "Comment=" ++ package.description ++ "\n" ++
  "Exec=/opt/" ++ app_name ++ "/" ++ app_name ++ "\n" ++
  "Icon=" ++ app_name ++ "\n" ++
  "Terminal=false\n" ++
  "Categories=Utility;\n" ++
  "EOF\n" ++
  "    fi\n" ++
  "    \n" ++
  "    # Install icon if it exists\n" ++
  "    if [ -f \"$extracted_dir/data/flutter_assets/assets/icons/icon.png\" ]; then\n" ++
  "        install -Dm644 \"$extracted_dir/data/flutter_assets/assets/icons/icon.png\" \\\n" ++
  "            \"$pkgdir/usr/share/icons/hicolor/256x256/apps/" ++ app_name ++ ".png\"\n" ++
  "    fi\n" ++
  "    \n" ++
  "    # Install bundled libraries\n" ++
  "    if [ -d \"$extracted_dir/lib\" ]; then\n" ++
  "        install -dm755 \"$pkgdir/opt/" ++ app_name ++ "/lib\"\n" ++
  "        cp -r \"$extracted_dir/lib\"/* \"$pkgdir/opt/" ++ app_name ++ "/lib/\"\n" ++
  "    fi\n" ++
  "\x7d\n"

def generate_srcinfo (package : AURPackage)
    (version download_url sha256 : String) : String :=
  let srcinfo :=
    "pkgbase = " ++ package.name ++ "\n" ++
    "\tpkgdesc = " ++ package.description ++ "\n" ++
    "\tpkgver = " ++ version ++ "\n" ++
    "\tpkgrel = 1\n" ++
    "\turl = " ++ package.url ++ "\n" ++
    "\tarch = x86_64\n" ++
    "\tlicense = " ++ package.license ++ "\n"
  let srcinfo := srcinfo ++
    pyConcat (package.depends.map (fun dep => "\tdepends = " ++ dep ++ "\n"))
  let srcinfo := srcinfo ++
    pyConcat (package.conflicts.map (fun c => "\tconflicts = " ++ c ++ "\n"))
  let srcinfo := srcinfo ++
    pyConcat (package.provides.map (fun p => "\tprovides = " ++ p ++ "\n"))
  srcinfo ++
  "\toptions = !strip\n" ++
  "\tsource = " ++ package.name ++ "-" ++ version ++ ".zip::" ++ download_url ++ "\n" ++
  "\tsha256sums = " ++ sha256 ++ "\n" ++
  "\n" ++
  "pkgname = " ++ package.name ++ "\n"

/-! ## Effect model

`World` supplies the outcomes of the script's external interactions;
`Event` records which interactions a run performs (so that claims of
the form "operation X is never invoked" are statable). -/

structure World where
  /-- `GET {base}/apps/{slug}/latest`: network failure or parsed JSON body. -/
  api : String → Except Unit Json
  /-- Artifact download: transport error/timeout or the byte stream. -/
  download : String → Option (List Nat)
  /-- `git clone` of the package's AUR repository succeeds. -/
  clone : String → Bool
  /-- Content of `PKGBUILD` in the fresh working copy, if the file exists. -/
  pkgbuild : String → Option String
  /-- `git config` calls succeed. -/
  gitConfigOk : Bool
  /-- `git add -A` succeeds. -/
  addOk : Bool
  /-- `git status --porcelain` stdout after staging. -/
  status : String
  /-- `git commit` succeeds. -/
  commitOk : Bool
  /-- `git push origin master`: `none` is a timeout, `some rc` the return code. -/
  push : Option Int

inductive Event where
  | apiFetch (slug : String)
  | download (url : String)
  | gitClone (package : String)
  | gitAdd
  | gitStatus
  | gitCommit (msg : String)
  | gitPush
  | writeFile (name : String) (content : String)
deriving DecidableEq, Repr

/-! ## `OpenLystClient` -/

/-- `OpenLystClient.get_latest_version`: a `requests.RequestException`
(connection error, timeout, non-2xx via `raise_for_status`) is caught
and yields `None`; an unsuccessful body yields `None`; otherwise
`data.get('data')` is returned.  `data.get` on a non-dict body raises
`AttributeError`, which the `except requests.RequestException` clause
does not catch. -/
def get_latest_version (w : World) (slug : String) : Except PyErr Json :=
  match w.api slug with
  | .error _ => .ok .null
  | .ok data =>
    match dict_get data "success" .null with
    | .error e => .error e
    | .ok s =>
      if pyTruthy s then dict_get data "data" .null
      else .ok .null

/-- `OpenLystClient.get_linux_zip_url`: chained `dict.get` with dict
defaults and final default `''`.  The surrounding `try` catches only
`KeyError`/`TypeError`, which `dict.get` never raises; an
`AttributeError` from `.get` on a non-dict intermediate value
propagates. -/
def get_linux_zip_url (version_data : Json) : Except PyErr Json :=
  match dict_get version_data "downloads" (.obj []) with
  | .error e => .error e
  | .ok downloads =>
    match dict_get downloads "Linux" (.obj []) with
    | .error e => .error e
    | .ok linux =>
      match dict_get linux "zip" (.obj []) with
      | .error e => .error e
      | .ok zip_data => dict_get zip_data "x86_64" (.str "")

/-! ## `calculate_sha256`

The Python function catches every `Exception` (so it is total) and on
success returns `sha256(...).hexdigest()` of the streamed bytes; the
8192-byte chunking is digest-equivalent to hashing the whole stream. -/

def calculate_sha256 (w : World) (url : Json) : Option String :=
  match url with
  | .str u =>
    match w.download u with
    | none => none
    | some bytes => some (sha256_hexdigest bytes)
  | _ => none

/-! ## `get_current_aur_version` (the version gate's read side) -/

/-- Scan of the file's lines: first line starting with `pkgver=` is
stripped, split on `=`, and its second piece returned. -/
def findPkgver : List (List Char) → Option String
  | [] => none
  | line :: rest =>
    if "pkgver=".data.isPrefixOf line then
      match splitOnChar '=' (pyStripChars line) with
      | _ :: v :: _ => some (String.mk v)
      | _ => none
    else findPkgver rest

/-- `get_current_aur_version`: `None` when the file does not exist or
no `pkgver=` line is found; exceptions are caught into `None`. -/
def get_current_aur_version (file : Option String) : Option String :=
  match file with
  | none => none
  | some content => findPkgver (splitOnChar '\n' content.data)

/-! ## `commit_and_push` -/

/-- `commit_and_push`: stage, check `git status --porcelain`, commit
with the fixed message, push once.  `CalledProcessError` and
`TimeoutExpired` are caught into `False`; an empty status short-circuits
to `True` without committing. -/
def commit_and_push (w : World) (version package_name : String) :
    Bool × List Event :=
  if !w.addOk then (false, [.gitAdd])
  else if pyStripStr w.status = "" then (true, [.gitAdd, .gitStatus])
  else
    let commit_msg := "Update " ++ package_name ++ " to version " ++ version
    if !w.commitOk then (false, [.gitAdd, .gitStatus, .gitCommit commit_msg])
    else
      match w.push with
      | none => (false, [.gitAdd, .gitStatus, .gitCommit commit_msg, .gitPush])
      | some rc =>
        if rc ≠ 0 then
          (false, [.gitAdd, .gitStatus, .gitCommit commit_msg, .gitPush])
        else (true, [.gitAdd, .gitStatus, .gitCommit commit_msg, .gitPush])

/-! ## `update_package` -/

/-- The version gate (line 489): skip when
`current_version == version and not force`. -/
def gate_skips (current : Option String) (version : Json) (force : Bool) : Bool :=
  pyEq current version && !force

/-- The publish decision, as the spec names it: the negation of the
gate's skip condition. -/
def should_publish (current : Option String) (version : Json) (force : Bool) : Bool :=
  !gate_skips current version force

/-- Download events performed by `calculate_sha256`: `requests.get`
contacts the network only for string URLs (a non-string raises before
any request and is swallowed by the `except Exception` clause). -/
def downloadEvents (url : Json) : List Event :=
  match url with
  | .str u => [.download u]
  | _ => []

/-- `update_package`: one package's pipeline, returning the Python
`(success, message)` pair (or an uncaught exception) together with the
trace of performed external operations. -/
def update_package (w : World) (package_name : String)
    (dry_run force : Bool) : Except PyErr (Bool × String) × List Event :=
  match AUR_PACKAGES.lookup package_name with
  | none => (.ok (false, "Unknown package: " ++ package_name), [])
  | some package =>
    let ev0 := [Event.apiFetch package.slug]
    match get_latest_version w package.slug with
    | .error e => (.error e, ev0)
    | .ok version_data =>
      if !pyTruthy version_data then
        (.ok (false, "Failed to fetch version data for " ++ package.slug), ev0)
      else
        match dict_get version_data "version" .null with
        | .error e => (.error e, ev0)
        | .ok version =>
          if !pyTruthy version then
            (.ok (false, "No version found in API response"), ev0)
          else
            match get_linux_zip_url version_data with
            | .error e => (.error e, ev0)
            | .ok download_url =>
              if !pyTruthy download_url then
                (.ok (false, "No Linux x86_64 zip download URL found for " ++
                  package.slug), ev0)
              else
                let ev1 := ev0 ++ downloadEvents download_url
                match calculate_sha256 w download_url with
                | none => (.ok (false, "Failed to calculate SHA256 hash"), ev1)
                | some sha256 =>
                  if dry_run then
                    (.ok (true, "Dry run completed for " ++ package_name ++
                      " v" ++ pyStr version), ev1)
                  else
                    let ev2 := ev1 ++ [Event.gitClone package_name]
                    if !w.clone package_name then
                      (.ok (false, "Failed to clone AUR repository"), ev2)
                    else
                      let current_version :=
                        get_current_aur_version (w.pkgbuild package_name)
                      if gate_skips current_version version force then
                        (.ok (true, package_name ++ " is already at version " ++
                          pyStr version), ev2)
                      else if !w.gitConfigOk then
                        (.ok (false, "Failed to configure git"), ev2)
                      else
                        let pb := generate_pkgbuild package (pyStr version)
                          (pyStr download_url) sha256
                        let si := generate_srcinfo package (pyStr version)
                          (pyStr download_url) sha256
                        let ev3 := ev2 ++
                          [Event.writeFile "PKGBUILD" pb,
                           Event.writeFile ".SRCINFO" si]
                        let cp := commit_and_push w (pyStr version) package_name
                        let ev4 := ev3 ++ cp.2
                        if !cp.1 then
                          (.ok (false, "Failed to push changes to AUR"), ev4)
                        else
                          (.ok (true, "Successfully updated " ++ package_name ++
                            " to version " ++ pyStr version), ev4)

/-! ## `main`: the per-package loop, summary count and exit code -/

/-- The `for package_name in packages` loop: an uncaught exception from
`update_package` aborts the whole run (there is no handler in `main`). -/
def runPackages (w : World) (packages : List String)
    (dry_run force : Bool) : Except PyErr (List (String × Bool × String)) :=
  match packages with
  | [] => .ok []
  | p :: rest =>
    match (update_package w p dry_run force).1 with
    | .error e => .error e
    | .ok r =>
      match runPackages w rest dry_run force with
      | .error e => .error e
      | .ok rs => .ok ((p, r.1, r.2) :: rs)

/-- `success_count` accumulated over the summary loop. -/
def success_count (results : List (String × Bool × String)) : Nat :=
  (results.filter (fun r => r.2.1)).length

/-- Process exit code: `sys.exit(1)` iff `success_count < len(results)`,
otherwise `main` falls off the end (exit 0). -/
def main_exit (results : List (String × Bool × String)) : Nat :=
  if success_count results < results.length then 1 else 0

/-- The run: the package loop followed by the summary's exit code. -/
def runMain (w : World) (packages : List String) (dry_run force : Bool) :
    Except PyErr (List (String × Bool × String) × Nat) :=
  match runPackages w packages dry_run force with
  | .error e => .error e
  | .ok rs => .ok (rs, main_exit rs)

/-! ## Helper lemmas about the string utilities -/

theorem containsSub_nil (hay : List Char) : containsSub hay [] = true := by
  induction hay with
  | nil => rfl
  | cons c rest ih => simp [containsSub, ih, List.isPrefixOf]

theorem containsSub_prefix (n y : List Char) : containsSub (n ++ y) n = true := by
  cases n with
  | nil => simpa using containsSub_nil y
  | cons c nt =>
    have hp : (c :: nt).isPrefixOf ((c :: nt) ++ y) = true :=
      List.isPrefixOf_iff_prefix.mpr (List.prefix_append _ _)
    simp only [List.cons_append] at hp
    simp [containsSub, hp]

theorem containsSub_right (x y n : List Char) (h : containsSub y n = true) :
    containsSub (x ++ y) n = true := by
  induction x with
  | nil => simpa using h
  | cons c rest ih => simp [containsSub, ih]

theorem containsSub_left (x y n : List Char) (h : containsSub x n = true) :
    containsSub (x ++ y) n = true := by
  induction x with
  | nil =>
    have hn : n = [] := by simpa [containsSub, List.isEmpty_iff] using h
    subst hn; exact containsSub_nil _
  | cons c rest ih =>
    rw [List.cons_append]
    simp only [containsSub, Bool.or_eq_true] at h ⊢
    rcases h with h | h
    · left
      have hpre := List.isPrefixOf_iff_prefix.mp h
      have : n <+: (c :: rest) ++ y := hpre.trans (List.prefix_append _ _)
      rw [List.cons_append] at this
      exact List.isPrefixOf_iff_prefix.mpr this
    · right; exact ih h

theorem containsSub_prefix2 (a b y : List Char) :
    containsSub (a ++ (b ++ y)) (a ++ b) = true := by
  have h := containsSub_prefix (a ++ b) y
  rwa [List.append_assoc] at h

theorem containsSub_prefix3 (a b c y : List Char) :
    containsSub (a ++ (b ++ (c ++ y))) (a ++ (b ++ c)) = true := by
  have h := containsSub_prefix (a ++ (b ++ c)) y
  rwa [List.append_assoc, List.append_assoc] at h

theorem pyJoin_mem_contains (sep pre post : String) (l : List String) (d : String)
    (h : d ∈ l) :
    containsSub (pyJoin sep (l.map (fun x => pre ++ x ++ post))).data
      (pre.data ++ (d.data ++ post.data)) = true := by
  induction l with
  | nil => cases h
  | cons x rest ih =>
    rcases List.mem_cons.mp h with rfl | hm
    · cases rest with
      | nil =>
        simp only [List.map, pyJoin]
        simpa [String.data_append, List.append_assoc] using
          containsSub_prefix (pre.data ++ (d.data ++ post.data)) []
      | cons x2 rest2 =>
        simp only [List.map, pyJoin]
        simpa [String.data_append, List.append_assoc] using
          containsSub_prefix3 pre.data d.data post.data
            (sep.data ++ (pyJoin sep ((x2 :: rest2).map (fun z => pre ++ z ++ post))).data)
    · cases rest with
      | nil => cases hm
      | cons x2 rest2 =>
        simp only [List.map, pyJoin]
        simpa [String.data_append, List.append_assoc] using
          containsSub_right (pre.data ++ (x.data ++ (post.data ++ sep.data)))
            (pyJoin sep ((x2 :: rest2).map (fun z => pre ++ z ++ post))).data _ (ih hm)

theorem pyConcat_mem_contains (pre post : String) (l : List String) (d : String)
    (h : d ∈ l) :
    containsSub (pyConcat (l.map (fun x => pre ++ x ++ post))).data
      (pre.data ++ (d.data ++ post.data)) = true := by
  induction l with
  | nil => cases h
  | cons x rest ih =>
    rcases List.mem_cons.mp h with rfl | hm
    · simp only [List.map, pyConcat]
      simpa [String.data_append, List.append_assoc] using
        containsSub_prefix3 pre.data d.data post.data
          (pyConcat (rest.map (fun z => pre ++ z ++ post))).data
    · simp only [List.map, pyConcat]
      simpa [String.data_append, List.append_assoc] using
        containsSub_right (pre.data ++ (x.data ++ post.data))
          (pyConcat (rest.map (fun z => pre ++ z ++ post))).data _ (ih hm)

theorem splitOnChar_ne_nil (sep : Char) (l : List Char) : splitOnChar sep l ≠ [] := by
  cases l with
  | nil => simp [splitOnChar]
  | cons c rest =>
    simp only [splitOnChar]
    split
    · simp
    · split <;> simp

theorem splitOnChar_not_mem (sep : Char) (l : List Char) (h : sep ∉ l) :
    splitOnChar sep l = [l] := by
  induction l with
  | nil => rfl
  | cons c rest ih =>
    have hc : ¬(c = sep) := fun e => h (e ▸ List.mem_cons_self c rest)
    have hr : sep ∉ rest := fun m => h (List.mem_cons_of_mem c m)
    simp [splitOnChar, hc, ih hr]

/-- Merge of two split results across a list append boundary. -/
def glueSplits (xs ys : List (List Char)) : List (List Char) :=
  match xs with
  | [] => ys
  | [x] =>
    match ys with
    | [] => [x]
    | y :: yt => (x ++ y) :: yt
  | x :: xt => x :: glueSplits xt ys

theorem splitOnChar_append (sep : Char) (a b : List Char) :
    splitOnChar sep (a ++ b) = glueSplits (splitOnChar sep a) (splitOnChar sep b) := by
  induction a with
  | nil =>
    obtain ⟨y, yt, hy⟩ := List.exists_cons_of_ne_nil (splitOnChar_ne_nil sep b)
    simp [splitOnChar, glueSplits, hy]
  | cons c cs ih =>
    by_cases hc : c = sep
    · subst hc
      obtain ⟨h1, t1, h1e⟩ := List.exists_cons_of_ne_nil (splitOnChar_ne_nil c cs)
      simp [splitOnChar, ih, h1e, glueSplits]
    · obtain ⟨h1, t1, h1e⟩ := List.exists_cons_of_ne_nil (splitOnChar_ne_nil sep cs)
      obtain ⟨y, yt, hye⟩ := List.exists_cons_of_ne_nil (splitOnChar_ne_nil sep b)
      cases t1 with
      | nil => simp [splitOnChar, hc, ih, h1e, hye, glueSplits]
      | cons t1h t1t => simp [splitOnChar, hc, ih, h1e, hye, glueSplits]

theorem pyRStrip_append (a v : List Char)
    (ha : a.reverse.dropWhile isPyWs = a.reverse) :
    pyRStrip (a ++ v) = a ++ pyRStrip v := by
  unfold pyRStrip
  rw [List.reverse_append, List.dropWhile_append]
  by_cases hE : (v.reverse.dropWhile isPyWs).isEmpty
  · rw [if_pos hE, ha, List.reverse_reverse, List.isEmpty_iff.mp hE]
    simp
  · rw [if_neg hE, List.reverse_append, List.reverse_reverse]

theorem mem_of_mem_pyRStrip (c : Char) (v : List Char) (h : c ∈ pyRStrip v) :
    c ∈ v := by
  unfold pyRStrip at h
  rw [List.mem_reverse] at h
  exact List.mem_reverse.mp (List.Sublist.mem h (List.dropWhile_sublist _))

instance {ε α : Type} [DecidableEq ε] [DecidableEq α] : DecidableEq (Except ε α) :=
  fun a b =>
    match a, b with
    | .error e, .error f =>
      if h : e = f then .isTrue (h ▸ rfl)
      else .isFalse (fun hh => h (by injection hh))
    | .ok x, .ok y =>
      if h : x = y then .isTrue (h ▸ rfl)
      else .isFalse (fun hh => h (by injection hh))
    | .error _, .ok _ => .isFalse (fun hh => Except.noConfusion hh)
    | .ok _, .error _ => .isFalse (fun hh => Except.noConfusion hh)

/-! ## Concrete worlds used by counterexamples and witnesses -/

/-- A well-formed upstream payload at the given version. -/
def apiBody (version : String) : Json :=
  .obj [("success", .bool true),
        ("data", .obj [("version", .str version),
          ("downloads", .obj [("Linux", .obj [("zip",
            .obj [("x86_64", .str "https://dl/klit.zip")])])])])]

/-- World in which `klit-bin` fully succeeds: upstream at 1.0.1,
published copy at 1.0.0, every git operation succeeding. -/
def worldOk : World :=
  ⟨fun s => if s = "klit" then .ok (apiBody "1.0.1") else .error (),
   fun u => if u = "https://dl/klit.zip" then some [] else none,
   fun _ => true, fun _ => some "pkgver=1.0.0\n", true, true,
   " M PKGBUILD\n", true, some 0⟩

/-- World whose upstream payload carries a non-dict `downloads` value. -/
def worldMalformed : World :=
  ⟨fun _ => .ok (.obj [("success", .bool true),
     ("data", .obj [("version", .str "9.9"), ("downloads", .str "oops")])]),
   fun _ => none, fun _ => false, fun _ => none, false, false, "", false, none⟩

/-- World in which the published version already equals upstream (1.0.0). -/
def worldCurrent : World :=
  ⟨fun s => if s = "klit" then .ok (apiBody "1.0.0") else .error (),
   fun u => if u = "https://dl/klit.zip" then some [] else none,
   fun _ => true, fun _ => some "pkgver=1.0.0\n", true, true,
   " M PKGBUILD\n", true, some 0⟩

/-- World in which the upstream API is unreachable. -/
def worldDown : World :=
  ⟨fun _ => .error (), fun _ => none, fun _ => false, fun _ => none,
   false, false, "", false, none⟩

/-- Git-only world: staged tree shows no diff. -/
def worldNoDiff : World :=
  ⟨fun _ => .error (), fun _ => none, fun _ => false, fun _ => none,
   true, true, "", true, some 0⟩

/-- Git-only world: staged diff present, push accepted. -/
def worldDiff : World :=
  ⟨fun _ => .error (), fun _ => none, fun _ => false, fun _ => none,
   true, true, " M PKGBUILD\n", true, some 0⟩

/-- Git-only world: staged diff present, push times out. -/
def worldPushTimeout : World :=
  ⟨fun _ => .error (), fun _ => none, fun _ => false, fun _ => none,
   true, true, " M PKGBUILD\n", true, none⟩

/-- Git-only world: staged diff present, push rejected (return code 1). -/
def worldPushReject : World :=
  ⟨fun _ => .error (), fun _ => none, fun _ => false, fun _ => none,
   true, true, " M PKGBUILD\n", true, some 1⟩

/-- World that downloads the three bytes `b"abc"` from one URL. -/
def worldAbc : World :=
  ⟨fun _ => .error (),
   fun u => if u = "https://e/app.zip" then some [97, 98, 99] else none,
   fun _ => false, fun _ => none, false, false, "", false, none⟩

/-- World whose upstream payload lacks any Linux download entry. -/
def worldNoArtifact : World :=
  ⟨fun s => if s = "klit" then .ok (.obj [("success", .bool true),
      ("data", .obj [("version", .str "1.0"), ("downloads", .obj [])])])
    else .error (),
   fun _ => none, fun _ => false, fun _ => none, false, false, "", false, none⟩

/-! ## Spec-side predicates used to state claims -/

/-- "a 64-hex-character uppercase string" (digits and `A`-`F`). -/
def isUpperHex64 (s : String) : Bool :=
  (s.length == 64) && s.data.all (fun c => c.isDigit || ('A' ≤ c && c ≤ 'F'))

/-- A 64-character lowercase hex string (digits and `a`-`f`). -/
def isLowerHex64 (s : String) : Bool :=
  (s.length == 64) && s.data.all (fun c => c.isDigit || ('a' ≤ c && c ≤ 'f'))

/-- A value is safe to interpolate verbatim inside a double-quoted
shell context only if it carries no double quote, dollar, backtick or
backslash. -/
def dqSafe (s : String) : Bool :=
  s.data.all (fun c => !(c = '"' || c = '$' || c = Char.ofNat 96 || c = '\\'))

/-! # Claims -/

set_option maxRecDepth 100000

/-- C1 counterexample: in a run where `klit-bin` succeeds and `bogus`
fails the process exits with code 1 although one package succeeded,
refuting "the exit code is non-zero if and only if zero packages
succeeded". -/
theorem run_partial_success_exits_nonzero :
    runMain worldOk ["klit-bin", "bogus"] false false =
      .ok ([("klit-bin", true, "Successfully updated klit-bin to version 1.0.1"),
            ("bogus", false, "Unknown package: bogus")], 1) ∧
    success_count
      [("klit-bin", true, "Successfully updated klit-bin to version 1.0.1"),
       ("bogus", false, "Unknown package: bogus")] = 1 :=
  ⟨by decide, by decide⟩

/-- C1 amended: for every run that completes, the process exit code is
non-zero if and only if at least one package failed (equivalently, it
is zero exactly when every requested package succeeded). -/
theorem run_exit_nonzero_iff_some_failure (w : World) (packages : List String)
    (dry_run force : Bool) (rs : List (String × Bool × String)) (code : Nat)
    (h : runMain w packages dry_run force = .ok (rs, code)) :
    code ≠ 0 ↔ success_count rs < rs.length := by
  unfold runMain at h
  cases hrp : runPackages w packages dry_run force with
  | error e => rw [hrp] at h; cases h
  | ok rs0 =>
    rw [hrp] at h
    injection h with h2
    have hrs : rs0 = rs := congrArg Prod.fst h2
    have hcode : main_exit rs0 = code := congrArg Prod.snd h2
    subst hrs
    subst hcode
    unfold main_exit
    by_cases hc : success_count rs0 < rs0.length
    · simp [hc]
    · simp [hc]

/-- C1 witness: the amended statement applied to the concrete
partial-success run. -/
theorem run_exit_nonzero_iff_some_failure_witness :
    (1 : Nat) ≠ 0 ↔ success_count
        [("klit-bin", true, "Successfully updated klit-bin to version 1.0.1"),
         ("bogus", false, "Unknown package: bogus")] <
      ([("klit-bin", true, "Successfully updated klit-bin to version 1.0.1"),
        ("bogus", false, "Unknown package: bogus")] :
          List (String × Bool × String)).length :=
  run_exit_nonzero_iff_some_failure worldOk ["klit-bin", "bogus"] false false
    _ 1 (by decide)

/-- C3 counterexample: an upstream payload whose `downloads` value is a
string raises an uncaught `AttributeError` inside the first package's
pipeline and the whole run aborts: no result is produced for either
requested package, refuting "one result per package, failure never
aborts the run". -/
theorem run_aborts_on_malformed_payload :
    runMain worldMalformed ["klit-bin", "doudou-bin"] false false =
      .error .attributeError := by decide

/-- C3 amended: when every package's processing returns a typed
`(success, message)` outcome (no uncaught exception, e.g. well-typed
upstream payloads), the loop yields exactly one result per requested
package in request order, and a package failing with a typed outcome
never prevents the remaining packages from being processed. -/
theorem run_one_result_per_package (w : World) (packages : List String)
    (dry_run force : Bool) :
    (∀ rs, runPackages w packages dry_run force = .ok rs →
      rs.map (fun r => r.1) = packages) ∧
    ((∀ p ∈ packages, ∃ b m, (update_package w p dry_run force).1 = .ok (b, m)) →
      ∃ rs, runPackages w packages dry_run force = .ok rs) := by
  constructor
  · intro rs h
    induction packages generalizing rs with
    | nil =>
      unfold runPackages at h
      injection h with h2
      subst h2; rfl
    | cons p rest ih =>
      unfold runPackages at h
      cases hu : (update_package w p dry_run force).1 with
      | error e => simp only [hu] at h; exact Except.noConfusion h
      | ok r =>
        simp only [hu] at h
        cases hr : runPackages w rest dry_run force with
        | error e => simp only [hr] at h; exact Except.noConfusion h
        | ok rs2 =>
          simp only [hr] at h
          injection h with h2
          subst h2
          simp [ih rs2 hr]
  · intro hall
    induction packages with
    | nil => exact ⟨[], rfl⟩
    | cons p rest ih =>
      obtain ⟨b, m, hu⟩ := hall p (List.mem_cons_self _ _)
      obtain ⟨rs2, hr⟩ := ih (fun q hq => hall q (List.mem_cons_of_mem _ hq))
      refine ⟨(p, b, m) :: rs2, ?_⟩
      unfold runPackages
      simp only [hu, hr]

/-- C3 witness: both parts applied to a concrete two-package run in
which each package fails with a typed outcome yet both are processed. -/
theorem run_one_result_per_package_witness :
    ([("klit-bin", false, "Failed to fetch version data for klit"),
      ("bogus", false, "Unknown package: bogus")].map
        (fun r : String × Bool × String => r.1) = ["klit-bin", "bogus"]) ∧
    ∃ rs, runPackages worldDown ["klit-bin", "bogus"] false false = .ok rs := by
  constructor
  · exact (run_one_result_per_package worldDown ["klit-bin", "bogus"] false false).1
      [("klit-bin", false, "Failed to fetch version data for klit"),
       ("bogus", false, "Unknown package: bogus")] (by decide)
  · apply (run_one_result_per_package worldDown ["klit-bin", "bogus"] false false).2
    intro p hp
    rcases List.mem_cons.mp hp with rfl | hp2
    · exact ⟨false, "Failed to fetch version data for klit", by decide⟩
    · rcases List.mem_cons.mp hp2 with rfl | hp3
      · exact ⟨false, "Unknown package: bogus", by decide⟩
      · cases hp3

/-- C8 counterexample: the no-diff case returns the same outcome value
(`True`) as a successful commit-and-push — there is no distinct
NoChange outcome — although it indeed creates no commit. -/
theorem no_change_outcome_not_distinct :
    (commit_and_push worldNoDiff "1.0" "klit-bin").1 =
      (commit_and_push worldDiff "1.0" "klit-bin").1 ∧
    (commit_and_push worldNoDiff "1.0" "klit-bin").2 =
      [.gitAdd, .gitStatus] ∧
    (commit_and_push worldDiff "1.0" "klit-bin").2 =
      [.gitAdd, .gitStatus, .gitCommit "Update klit-bin to version 1.0",
       .gitPush] :=
  ⟨by decide, by decide, by decide⟩

/-- C8 amended: when the staged tree shows no diff the operation
returns success (`True`, indistinguishable from a publish) without
committing or pushing; otherwise it commits with exactly the message
`Update <packageName> to version <version>` and pushes exactly once; a
push timeout or rejection yields `False` with still exactly one push
attempt (no retry). -/
theorem commit_and_push_cases (w : World) (version package_name : String) :
    (w.addOk = true → pyStripStr w.status = "" →
      commit_and_push w version package_name = (true, [.gitAdd, .gitStatus])) ∧
    (w.addOk = true → pyStripStr w.status ≠ "" → w.commitOk = true →
      w.push = some 0 →
      commit_and_push w version package_name =
        (true, [.gitAdd, .gitStatus,
          .gitCommit ("Update " ++ package_name ++ " to version " ++ version),
          .gitPush])) ∧
    (w.addOk = true → pyStripStr w.status ≠ "" → w.commitOk = true →
      w.push = none →
      commit_and_push w version package_name =
        (false, [.gitAdd, .gitStatus,
          .gitCommit ("Update " ++ package_name ++ " to version " ++ version),
          .gitPush])) ∧
    (∀ rc : Int, rc ≠ 0 → w.addOk = true → pyStripStr w.status ≠ "" →
      w.commitOk = true → w.push = some rc →
      commit_and_push w version package_name =
        (false, [.gitAdd, .gitStatus,
          .gitCommit ("Update " ++ package_name ++ " to version " ++ version),
          .gitPush])) := by
  refine ⟨?_, ?_, ?_, ?_⟩
  · intro ha hs; simp [commit_and_push, ha, hs]
  · intro ha hs hc hp; simp [commit_and_push, ha, hs, hc, hp]
  · intro ha hs hc hp; simp [commit_and_push, ha, hs, hc, hp]
  · intro rc hrc ha hs hc hp; simp [commit_and_push, ha, hs, hc, hp, hrc]

/-- C8 witness: the four amended cases at concrete worlds. -/
theorem commit_and_push_cases_witness :
    commit_and_push worldNoDiff "1.0" "klit-bin" =
      (true, [.gitAdd, .gitStatus]) ∧
    commit_and_push worldDiff "1.0" "klit-bin" =
      (true, [.gitAdd, .gitStatus,
        .gitCommit ("Update " ++ "klit-bin" ++ " to version " ++ "1.0"),
        .gitPush]) ∧
    commit_and_push worldPushTimeout "1.0" "klit-bin" =
      (false, [.gitAdd, .gitStatus,
        .gitCommit ("Update " ++ "klit-bin" ++ " to version " ++ "1.0"),
        .gitPush]) ∧
    commit_and_push worldPushReject "1.0" "klit-bin" =
      (false, [.gitAdd, .gitStatus,
        .gitCommit ("Update " ++ "klit-bin" ++ " to version " ++ "1.0"),
        .gitPush]) :=
  ⟨(commit_and_push_cases worldNoDiff "1.0" "klit-bin").1 rfl (by decide),
   (commit_and_push_cases worldDiff "1.0" "klit-bin").2.1 rfl (by decide)
     rfl rfl,
   (commit_and_push_cases worldPushTimeout "1.0" "klit-bin").2.2.1 rfl
     (by decide) rfl rfl,
   (commit_and_push_cases worldPushReject "1.0" "klit-bin").2.2.2 1
     (by decide) rfl (by decide) rfl rfl⟩

/-- C10: requesting an update for a package name outside the fixed
registry yields the failure result `Unknown package: <name>` with an
empty event trace: no release fetch, artifact download, clone or push
is performed. -/
theorem unknown_package_fails_without_network (w : World) (name : String)
    (dry_run force : Bool) (h : AUR_PACKAGES.lookup name = none) :
    update_package w name dry_run force =
      (.ok (false, "Unknown package: " ++ name), []) := by
  unfold update_package
  rw [h]

/-- C10 witness: the unregistered name `sample-bin`. -/
theorem unknown_package_fails_without_network_witness :
    update_package worldDown "sample-bin" false false =
      (.ok (false, "Unknown package: " ++ "sample-bin"), []) :=
  unknown_package_fails_without_network worldDown "sample-bin" false false
    (by decide)

/-- C4 counterexample: the digest of the downloaded bytes `b"abc"` is
the lowercase hex string `ba7816bf...15ad`, not an uppercase string:
`hexdigest()` produces lowercase hex and the code never uppercases. -/
theorem sha256_digest_not_uppercase :
    calculate_sha256 worldAbc (.str "https://e/app.zip") =
      some (sha256_hexdigest [97, 98, 99]) ∧
    sha256_hexdigest [97, 98, 99] =
      "ba7816bf8f01cfea414140de5dae2223b00361a396177a9cb410ff61f20015ad" ∧
    isUpperHex64 (sha256_hexdigest [97, 98, 99]) = false :=
  ⟨rfl, by decide, by decide⟩

/-- C4 amended: for every successfully downloaded artifact the digest
operation returns the SHA-256 hex digest of the downloaded bytes in
lowercase — a 64-character string over `0-9a-f` — and a transport
error or timeout yields no digest (`None`). -/
theorem calculate_sha256_lowercase_hex (w : World) (u : String) :
    (∀ bytes, w.download u = some bytes →
      calculate_sha256 w (.str u) = some (sha256_hexdigest bytes) ∧
      isLowerHex64 (sha256_hexdigest bytes) = true) ∧
    (w.download u = none → calculate_sha256 w (.str u) = none) := by
  constructor
  · intro bytes hb
    constructor
    · simp only [calculate_sha256]
      rw [hb]
    · unfold isLowerHex64 sha256_hexdigest
      rw [Bool.and_eq_true]
      constructor
      · simp [String.length_mk]
      · rw [List.all_eq_true]
        intro c hc
        obtain ⟨i, hi, rfl⟩ := List.mem_map.mp hc
        set m := (List.foldl (fun acc h => acc * M32 + h) 0
          (sha256Words bytes)) >>> (4 * (63 - i)) % 16 with hm
        have hlt : m < 16 := Nat.mod_lt _ (by decide)
        unfold hexChar
        interval_cases m <;> decide
  · intro hn
    simp only [calculate_sha256]
    rw [hn]

/-- C4 witness: the lowercase result and the transport-error result at
the concrete world. -/
theorem calculate_sha256_lowercase_hex_witness :
    calculate_sha256 worldAbc (.str "https://e/app.zip") =
      some (sha256_hexdigest [97, 98, 99]) ∧
    isLowerHex64 (sha256_hexdigest [97, 98, 99]) = true ∧
    calculate_sha256 worldAbc (.str "https://nowhere") = none :=
  ⟨((calculate_sha256_lowercase_hex worldAbc "https://e/app.zip").1
      [97, 98, 99] (by decide)).1,
   ((calculate_sha256_lowercase_hex worldAbc "https://e/app.zip").1
      [97, 98, 99] (by decide)).2,
   (calculate_sha256_lowercase_hex worldAbc "https://nowhere").2 (by decide)⟩

/-- C5: evidence of the divergence — a download URL containing the
shell metacharacters `$(...)` is interpolated verbatim (unquoted,
unescaped) into the double-quoted `source=` entry of the rendered
recipe, where the shell would perform command substitution; no
shell-safe quoting is applied anywhere in `generate_pkgbuild`. -/
theorem pkgbuild_interpolates_url_unquoted :
    containsSub
      (generate_pkgbuild klitPackage "1.0.0" "https://e/$(date).zip" "ab").data
      ("::https://e/$(date).zip").data = true ∧
    dqSafe "https://e/$(date).zip" = false :=
  ⟨by decide, by decide⟩

/-- C9 counterexample: on a payload with no `downloads` entry the
extraction returns the empty string `''` (the final `.get` default),
not an absent (`None`) result. -/
theorem get_linux_zip_url_empty_not_absent :
    get_linux_zip_url (Json.obj []) = .ok (.str "") ∧
    Json.str "" ≠ Json.null :=
  ⟨rfl, fun h => Json.noConfusion h⟩

/-- C9 amended: a missing Linux/zip/x86_64 entry is tolerated without
raising — the extraction returns the empty string, which the caller's
falsiness check treats as absent, so the package's outcome is the
`No Linux x86_64 zip download URL found` failure and no download,
clone or git operation is performed. -/
theorem missing_artifact_yields_failure_result :
    (∀ kvs : List (String × Json), kvs.lookup "downloads" = none →
      get_linux_zip_url (.obj kvs) = .ok (.str "")) ∧
    (∀ (kvs dl li zp : List (String × Json)),
      kvs.lookup "downloads" = some (.obj dl) →
      dl.lookup "Linux" = some (.obj li) →
      li.lookup "zip" = some (.obj zp) →
      zp.lookup "x86_64" = none →
      get_linux_zip_url (.obj kvs) = .ok (.str "")) ∧
    (∀ (w : World) (name : String) (pkg : AURPackage) (vd ver du : Json)
      (dry_run force : Bool),
      AUR_PACKAGES.lookup name = some pkg →
      get_latest_version w pkg.slug = .ok vd →
      pyTruthy vd = true →
      dict_get vd "version" .null = .ok ver →
      pyTruthy ver = true →
      get_linux_zip_url vd = .ok du →
      pyTruthy du = false →
      update_package w name dry_run force =
        (.ok (false, "No Linux x86_64 zip download URL found for " ++ pkg.slug),
         [Event.apiFetch pkg.slug])) := by
  refine ⟨?_, ?_, ?_⟩
  · intro kvs h
    simp [get_linux_zip_url, dict_get, h]
  · intro kvs dl li zp h1 h2 h3 h4
    simp [get_linux_zip_url, dict_get, h1, h2, h3, h4]
  · intro w name pkg vd ver du dry_run force hlk hglv htv hver hvt hgl hfal
    unfold update_package
    simp [hlk, hglv, htv, hver, hvt, hgl, hfal]

/-- C9 witness: the three parts at concrete inputs (payload whose
`downloads` dict is empty). -/
theorem missing_artifact_yields_failure_result_witness :
    get_linux_zip_url (.obj [("version", .str "1.0")]) = .ok (.str "") ∧
    get_linux_zip_url (.obj [("downloads",
      .obj [("Linux", .obj [("zip", .obj [("arm64", .str "https://a")])])])]) =
      .ok (.str "") ∧
    update_package worldNoArtifact "klit-bin" false false =
      (.ok (false, "No Linux x86_64 zip download URL found for " ++ "klit"),
       [Event.apiFetch "klit"]) := by
  refine ⟨?_, ?_, ?_⟩
  · exact (missing_artifact_yields_failure_result).1
      [("version", .str "1.0")] rfl
  · exact (missing_artifact_yields_failure_result).2.1
      [("downloads", .obj [("Linux", .obj [("zip",
        .obj [("arm64", .str "https://a")])])])]
      [("Linux", .obj [("zip", .obj [("arm64", .str "https://a")])])]
      [("zip", .obj [("arm64", .str "https://a")])]
      [("arm64", .str "https://a")]
      rfl rfl rfl rfl
  · have h := (missing_artifact_yields_failure_result).2.2 worldNoArtifact
      "klit-bin" klitPackage
      (.obj [("version", .str "1.0"), ("downloads", .obj [])])
      (.str "1.0") (.str "") false false
      (by decide) rfl (by decide) rfl (by decide)
      rfl (by decide)
    exact h

/-- C2: when the currently published version equals the upstream
version and force is unset, the pipeline returns the already-current
success outcome and its event trace contains no `git add`, no commit
and no push (the commit-and-push operation is never invoked); moreover
the gate's publish decision equals the spec's formula
`force OR current ≠ upstream OR current is absent`. -/
theorem gate_skips_when_current_equals_upstream (w : World) (name : String)
    (pkg : AURPackage) (vd du : Json) (v sha : String)
    (h1 : AUR_PACKAGES.lookup name = some pkg)
    (h2 : get_latest_version w pkg.slug = .ok vd)
    (h3 : pyTruthy vd = true)
    (h4 : dict_get vd "version" .null = .ok (.str v))
    (h5 : v ≠ "")
    (h6 : get_linux_zip_url vd = .ok du)
    (h7 : pyTruthy du = true)
    (h8 : calculate_sha256 w du = some sha)
    (h9 : w.clone name = true)
    (h10 : get_current_aur_version (w.pkgbuild name) = some v) :
    (update_package w name false false).1 =
      .ok (true, name ++ " is already at version " ++ v) ∧
    (∀ e ∈ (update_package w name false false).2,
      e ≠ Event.gitAdd ∧ e ≠ Event.gitPush ∧ ∀ m, e ≠ Event.gitCommit m) ∧
    (∀ (cur : Option String) (force : Bool) (v2 : String),
      should_publish cur (.str v2) force =
        (force || decide (cur ≠ some v2) || decide (cur = none))) := by
  have htv : pyTruthy (.str v) = true := by simp [pyTruthy, h5]
  have hgate : gate_skips (some v) (.str v) false = true := by
    simp [gate_skips, pyEq]
  refine ⟨?_, ?_, ?_⟩
  · unfold update_package
    simp [h1, h2, h3, h4, htv, h6, h7, h8, h9, h10, hgate, pyStr]
  · unfold update_package
    simp only [h1, h2, h3, h4, htv, h6, h7, h8, h9, h10, hgate]
    intro e he
    simp only [Bool.not_true, Bool.false_eq_true, if_false, ite_false,
      ite_true, Bool.not_false] at he
    cases du <;>
      simp [downloadEvents, pyTruthy, htv, h9, hgate] at he <;>
      rcases he with rfl | rfl | rfl <;>
      exact ⟨by simp, by simp, fun m => by simp⟩
  · intro cur force v2
    cases cur with
    | none => simp [should_publish, gate_skips, pyEq]
    | some s =>
      by_cases hs : s = v2 <;>
        simp [should_publish, gate_skips, pyEq, hs]

/-- C2 witness: the concrete world whose published version equals the
upstream 1.0.0. -/
theorem gate_skips_when_current_equals_upstream_witness :
    (update_package worldCurrent "klit-bin" false false).1 =
      .ok (true, "klit-bin" ++ " is already at version " ++ "1.0.0") :=
  (gate_skips_when_current_equals_upstream worldCurrent "klit-bin" klitPackage
    (.obj [("version", .str "1.0.0"),
      ("downloads", .obj [("Linux", .obj [("zip",
        .obj [("x86_64", .str "https://dl/klit.zip")])])])])
    (.str "https://dl/klit.zip") "1.0.0" (sha256_hexdigest [])
    (by decide) rfl (by decide) rfl (by decide) rfl
    (by decide) rfl rfl (by decide)).1

/-! ## Chunk-level decomposition of the rendered artifacts

`chunksJoin`/`pkgbuildChunks`/`srcinfoChunks` give the right-nested
append normal form of the two renderers; the decomposition lemmas tie
them to `generate_pkgbuild`/`generate_srcinfo` and every later
containment argument walks the chunk list. -/

def chunksJoin : List (List Char) → List Char
  | [] => []
  | c :: rest => c ++ chunksJoin rest

/-- The rendered recipe, chunk by chunk, values kept as-is. -/
def pkgbuildChunks (package : AURPackage)
    (version download_url sha256 : String) : List (List Char) :=
  let app_name := pyReplace package.name "-bin" ""
  let depends_str :=
    pyJoin " " (package.depends.map (fun dep => sq ++ dep ++ sq))
  let conflicts_str :=
    pyJoin " " (package.conflicts.map (fun dep => sq ++ dep ++ sq))
  let provides_str :=
    pyJoin " " (package.provides.map (fun dep => sq ++ dep ++ sq))
  ["# Maintainer: HttpAnimations <httpanimations@proton.me>\n".data,
   "# Auto-generated by OpenLyst AUR Updater\n".data,
   "\n".data,
   "pkgname=".data,
   package.name.data,
   "\n".data,
   "pkgver=".data,
   version.data,
   "\n".data,
   "pkgrel=1\n".data,
   "pkgdesc=\"".data,
   package.description.data,
   "\"\n".data,
   "arch=(".data,
   sq.data,
   "x86_64".data,
   sq.data,
   ")\n".data,
   "url=\"".data,
   package.url.data,
   "\"\n".data,
   "license=(".data,
   sq.data,
   package.license.data,
   sq.data,
   ")\n".data,
   "depends=(".data,
   depends_str.data,
   ")\n".data,
   "conflicts=(".data,
   conflicts_str.data,
   ")\n".data,
   "provides=(".data,
   provides_str.data,
   ")\n".data,
   "source=(\"$\x7bpkgname\x7d-$\x7bpkgver\x7d.zip::".data,
   download_url.data,
   "\")\n".data,
   "sha256sums=(".data,
   sq.data,
   sha256.data,
   sq.data,
   ")\n".data,
   "options=(".data,
   sq.data,
   "!strip".data,
   sq.data,
   ")\n".data,
   "\n".data,
   "package() \x7b\n".data,
   "    cd \"$srcdir\"\n".data,
   "    \n".data,
   "    # Find the extracted directory (handles different naming patterns)\n".data,
   "    local extracted_dir\n".data,
   "    extracted_dir=$(find . -maxdepth 1 -type d -name \"".data,
   app_name.data,
   "*\" | head -1)\n".data,
   "    \n".data,
   "    if [ -z \"$extracted_dir\" ]; then\n".data,
   "        # Fallback: try to find any directory that".data,
   sq.data,
   "s not current/parent\n".data,
   "        extracted_dir=$(find . -maxdepth 1 -type d ! -name \".\" ! -name \"..\" | head -1)\n".data,
   "    fi\n".data,
   "    \n".data,
   "    if [ -z \"$extracted_dir\" ]; then\n".data,
   "        echo \"Error: Could not find extracted directory\"\n".data,
   "        return 1\n".data,
   "    fi\n".data,
   "    \n".data,
   "    # Install the application\n".data,
   "    install -dm755 \"$pkgdir/opt/".data,
   app_name.data,
   "\"\n".data,
   "    cp -r \"$extracted_dir\"/* \"$pkgdir/opt/".data,
   app_name.data,
   "/\"\n".data,
   "    \n".data,
   "    # Make the main executable\n".data,
   "    chmod +x \"$pkgdir/opt/".data,
   app_name.data,
   "/".data,
   app_name.data,
   "\"\n".data,
   "    \n".data,
   "    # Create symlink in /usr/bin\n".data,
   "    install -dm755 \"$pkgdir/usr/bin\"\n".data,
   "    ln -sf \"/opt/".data,
   app_name.data,
   "/".data,
   app_name.data,
   "\" \"$pkgdir/usr/bin/".data,
   app_name.data,
   "\"\n".data,
   "    \n".data,
   "    # Install desktop file if it exists\n".data,
   "    if [ -f \"$extracted_dir/".data,
   app_name.data,
   ".desktop\" ]; then\n".data,
   "        install -Dm644 \"$extracted_dir/".data,
   app_name.data,
   ".desktop\" \"$pkgdir/usr/share/applications/".data,
   app_name.data,
   ".desktop\"\n".data,
   "    else\n".data,
   "        # Create a basic desktop file\n".data,
   "        install -dm755 \"$pkgdir/usr/share/applications\"\n".data,
   "        cat > \"$pkgdir/usr/share/applications/".data,
   app_name.data,
   ".desktop\" << EOF\n".data,
   "[Desktop Entry]\n".data,
   "Type=Application\n".data,
   "Name=".data,
   (pyCapitalize app_name).data,
   "\n".data,
   "Comment=".data,
   package.description.data,
   "\n".data,
   "Exec=/opt/".data,
   app_name.data,
   "/".data,
   app_name.data,
   "\n".data,
   "Icon=".data,
   app_name.data,
   "\n".data,
   "Terminal=false\n".data,
   "Categories=Utility;\n".data,
   "EOF\n".data,
   "    fi\n".data,
   "    \n".data,
   "    # Install icon if it exists\n".data,
   "    if [ -f \"$extracted_dir/data/flutter_assets/assets/icons/icon.png\" ]; then\n".data,
   "        install -Dm644 \"$extracted_dir/data/flutter_assets/assets/icons/icon.png\" \\\n".data,
   "            \"$pkgdir/usr/share/icons/hicolor/256x256/apps/".data,
   app_name.data,
   ".png\"\n".data,
   "    fi\n".data,
   "    \n".data,
   "    # Install bundled libraries\n".data,
   "    if [ -d \"$extracted_dir/lib\" ]; then\n".data,
   "        install -dm755 \"$pkgdir/opt/".data,
   app_name.data,
   "/lib\"\n".data,
   "        cp -r \"$extracted_dir/lib\"/* \"$pkgdir/opt/".data,
   app_name.data,
   "/lib/\"\n".data,
   "    fi\n".data,
   "\x7d\n".data]

/-- The rendered source-info, chunk by chunk, values kept as-is. -/
def srcinfoChunks (package : AURPackage)
    (version download_url sha256 : String) : List (List Char) :=
  ["pkgbase = ".data, package.name.data, "\n".data,
   "\tpkgdesc = ".data, package.description.data, "\n".data,
   "\tpkgver = ".data, version.data, "\n".data,
   "\tpkgrel = 1\n".data,
   "\turl = ".data, package.url.data, "\n".data,
   "\tarch = x86_64\n".data,
   "\tlicense = ".data, package.license.data, "\n".data,
   (pyConcat (package.depends.map (fun dep => "\tdepends = " ++ dep ++ "\n"))).data,
   (pyConcat (package.conflicts.map (fun c => "\tconflicts = " ++ c ++ "\n"))).data,
   (pyConcat (package.provides.map (fun p => "\tprovides = " ++ p ++ "\n"))).data,
   "\toptions = !strip\n".data,
   "\tsource = ".data, package.name.data, "-".data, version.data,
   ".zip::".data, download_url.data, "\n".data,
   "\tsha256sums = ".data, sha256.data, "\n".data,
   "\n".data,
   "pkgname = ".data, package.name.data, "\n".data]

set_option maxHeartbeats 2000000 in
theorem generate_pkgbuild_data (package : AURPackage)
    (version download_url sha256 : String) :
    (generate_pkgbuild package version download_url sha256).data =
      chunksJoin (pkgbuildChunks package version download_url sha256) := by
  simp only [generate_pkgbuild, pkgbuildChunks, chunksJoin, String.data_append,
    List.append_assoc, List.append_nil]

set_option maxHeartbeats 2000000 in
theorem generate_srcinfo_data (package : AURPackage)
    (version download_url sha256 : String) :
    (generate_srcinfo package version download_url sha256).data =
      chunksJoin (srcinfoChunks package version download_url sha256) := by
  simp only [generate_srcinfo, srcinfoChunks, chunksJoin, String.data_append,
    List.append_assoc, List.append_nil]

theorem containsSub_prefix4 (a b c d y : List Char) :
    containsSub (a ++ (b ++ (c ++ (d ++ y)))) (a ++ (b ++ (c ++ d))) = true := by
  have h := containsSub_prefix (a ++ (b ++ (c ++ d))) y
  rwa [List.append_assoc, List.append_assoc, List.append_assoc] at h

theorem containsSub_prefix6 (a b c d e f y : List Char) :
    containsSub (a ++ (b ++ (c ++ (d ++ (e ++ (f ++ y))))))
      (a ++ (b ++ (c ++ (d ++ (e ++ f))))) = true := by
  have h := containsSub_prefix (a ++ (b ++ (c ++ (d ++ (e ++ f))))) y
  rwa [List.append_assoc, List.append_assoc, List.append_assoc,
    List.append_assoc, List.append_assoc] at h

set_option maxHeartbeats 4000000 in
/-- C6 counterexample: for the concrete klit package at version 1.0.0
the source-info writes the inlined source entry
`klit-bin-1.0.0.zip::<url>`, a text nowhere present in the rendered
recipe, which instead writes `${pkgname}-${pkgver}.zip::<url>` — a
text nowhere present in the source-info: the source-line value is not
textually identical between the two artifacts. -/
theorem source_line_not_textually_identical :
    containsSub
      (generate_srcinfo klitPackage "1.0.0" "https://e/x.zip" "ab").data
      ("\tsource = klit-bin-1.0.0.zip::https://e/x.zip").data = true ∧
    containsSub
      (generate_pkgbuild klitPackage "1.0.0" "https://e/x.zip" "ab").data
      ("klit-bin-1.0.0.zip::https://e/x.zip").data = false ∧
    containsSub
      (generate_pkgbuild klitPackage "1.0.0" "https://e/x.zip" "ab").data
      ("source=(\"$\x7bpkgname\x7d-$\x7bpkgver\x7d.zip::https://e/x.zip\")").data
      = true ∧
    containsSub
      (generate_srcinfo klitPackage "1.0.0" "https://e/x.zip" "ab").data
      ("$\x7bpkgname\x7d").data = false :=
  ⟨by decide, by decide, by decide, by decide⟩

set_option maxHeartbeats 8000000 in
/-- C6 amended: for every package specification, version, URL and
digest, each value present in both artifacts — name, version,
description, URL, license, every dependency/conflict/provides entry
and the digest — is embedded textually identically (the very same
string) in the rendered recipe and in the source-info summary; the one
exception is the source entry, where the recipe embeds
`${pkgname}-${pkgver}.zip::<url>` with shell variable references while
the source-info inlines `<name>-<version>.zip::<url>`. -/
theorem artifact_values_shared_except_source (pkg : AURPackage)
    (v u s : String) :
    (containsSub (generate_pkgbuild pkg v u s).data
      ("pkgname=".data ++ pkg.name.data) = true ∧
     containsSub (generate_srcinfo pkg v u s).data
      ("pkgbase = ".data ++ pkg.name.data) = true) ∧
    (containsSub (generate_pkgbuild pkg v u s).data
      ("pkgver=".data ++ v.data) = true ∧
     containsSub (generate_srcinfo pkg v u s).data
      ("\tpkgver = ".data ++ (v.data ++ "\n".data)) = true) ∧
    (containsSub (generate_pkgbuild pkg v u s).data
      ("pkgdesc=\"".data ++ pkg.description.data) = true ∧
     containsSub (generate_srcinfo pkg v u s).data
      ("\tpkgdesc = ".data ++ (pkg.description.data ++ "\n".data)) = true) ∧
    (containsSub (generate_pkgbuild pkg v u s).data
      ("url=\"".data ++ pkg.url.data) = true ∧
     containsSub (generate_srcinfo pkg v u s).data
      ("\turl = ".data ++ (pkg.url.data ++ "\n".data)) = true) ∧
    (containsSub (generate_pkgbuild pkg v u s).data
      ("license=(".data ++ (sq.data ++ (pkg.license.data ++ sq.data))) = true ∧
     containsSub (generate_srcinfo pkg v u s).data
      ("\tlicense = ".data ++ (pkg.license.data ++ "\n".data)) = true) ∧
    (containsSub (generate_pkgbuild pkg v u s).data
      ("sha256sums=(".data ++ (sq.data ++ (s.data ++ sq.data))) = true ∧
     containsSub (generate_srcinfo pkg v u s).data
      ("\tsha256sums = ".data ++ (s.data ++ "\n".data)) = true) ∧
    (containsSub (generate_pkgbuild pkg v u s).data
      ("source=(\"$\x7bpkgname\x7d-$\x7bpkgver\x7d.zip::".data ++ u.data)
        = true ∧
     containsSub (generate_srcinfo pkg v u s).data
      ("\tsource = ".data ++ (pkg.name.data ++ ("-".data ++ (v.data ++
        (".zip::".data ++ u.data))))) = true) ∧
    (∀ d ∈ pkg.depends,
      containsSub (generate_pkgbuild pkg v u s).data
        (sq.data ++ (d.data ++ sq.data)) = true ∧
      containsSub (generate_srcinfo pkg v u s).data
        ("\tdepends = ".data ++ (d.data ++ "\n".data)) = true) ∧
    (∀ c ∈ pkg.conflicts,
      containsSub (generate_pkgbuild pkg v u s).data
        (sq.data ++ (c.data ++ sq.data)) = true ∧
      containsSub (generate_srcinfo pkg v u s).data
        ("\tconflicts = ".data ++ (c.data ++ "\n".data)) = true) ∧
    (∀ p ∈ pkg.provides,
      containsSub (generate_pkgbuild pkg v u s).data
        (sq.data ++ (p.data ++ sq.data)) = true ∧
      containsSub (generate_srcinfo pkg v u s).data
        ("\tprovides = ".data ++ (p.data ++ "\n".data)) = true) := by
  refine ⟨⟨?_, ?_⟩, ⟨?_, ?_⟩, ⟨?_, ?_⟩, ⟨?_, ?_⟩, ⟨?_, ?_⟩, ⟨?_, ?_⟩,
    ⟨?_, ?_⟩, ?_, ?_, ?_⟩
  · rw [generate_pkgbuild_data]
    simp only [pkgbuildChunks, chunksJoin]
    repeat first
      | exact containsSub_prefix2 _ _ _
      | apply containsSub_right
  · rw [generate_srcinfo_data]
    simp only [srcinfoChunks, chunksJoin]
    repeat first
      | exact containsSub_prefix2 _ _ _
      | apply containsSub_right
  · rw [generate_pkgbuild_data]
    simp only [pkgbuildChunks, chunksJoin]
    repeat first
      | exact containsSub_prefix2 _ _ _
      | apply containsSub_right
  · rw [generate_srcinfo_data]
    simp only [srcinfoChunks, chunksJoin]
    repeat first
      | exact containsSub_prefix3 _ _ _ _
      | apply containsSub_right
  · rw [generate_pkgbuild_data]
    simp only [pkgbuildChunks, chunksJoin]
    repeat first
      | exact containsSub_prefix2 _ _ _
      | apply containsSub_right
  · rw [generate_srcinfo_data]
    simp only [srcinfoChunks, chunksJoin]
    repeat first
      | exact containsSub_prefix3 _ _ _ _
      | apply containsSub_right
  · rw [generate_pkgbuild_data]
    simp only [pkgbuildChunks, chunksJoin]
    repeat first
      | exact containsSub_prefix2 _ _ _
      | apply containsSub_right
  · rw [generate_srcinfo_data]
    simp only [srcinfoChunks, chunksJoin]
    repeat first
      | exact containsSub_prefix3 _ _ _ _
      | apply containsSub_right
  · rw [generate_pkgbuild_data]
    simp only [pkgbuildChunks, chunksJoin]
    repeat first
      | exact containsSub_prefix4 _ _ _ _ _
      | apply containsSub_right
  · rw [generate_srcinfo_data]
    simp only [srcinfoChunks, chunksJoin]
    repeat first
      | exact containsSub_prefix3 _ _ _ _
      | apply containsSub_right
  · rw [generate_pkgbuild_data]
    simp only [pkgbuildChunks, chunksJoin]
    repeat first
      | exact containsSub_prefix4 _ _ _ _ _
      | apply containsSub_right
  · rw [generate_srcinfo_data]
    simp only [srcinfoChunks, chunksJoin]
    repeat first
      | exact containsSub_prefix3 _ _ _ _
      | apply containsSub_right
  · rw [generate_pkgbuild_data]
    simp only [pkgbuildChunks, chunksJoin]
    repeat first
      | exact containsSub_prefix2 _ _ _
      | apply containsSub_right
  · rw [generate_srcinfo_data]
    simp only [srcinfoChunks, chunksJoin]
    repeat first
      | exact containsSub_prefix6 _ _ _ _ _ _ _
      | apply containsSub_right
  · intro d hd
    constructor
    · rw [generate_pkgbuild_data]
      simp only [pkgbuildChunks, chunksJoin]
      repeat first
        | exact containsSub_left _ _ _
            (pyJoin_mem_contains " " sq sq pkg.depends d hd)
        | apply containsSub_right
    · rw [generate_srcinfo_data]
      simp only [srcinfoChunks, chunksJoin]
      repeat first
        | exact containsSub_left _ _ _
            (pyConcat_mem_contains "\tdepends = " "\n" pkg.depends d hd)
        | apply containsSub_right
  · intro c hc
    constructor
    · rw [generate_pkgbuild_data]
      simp only [pkgbuildChunks, chunksJoin]
      repeat first
        | exact containsSub_left _ _ _
            (pyJoin_mem_contains " " sq sq pkg.conflicts c hc)
        | apply containsSub_right
    · rw [generate_srcinfo_data]
      simp only [srcinfoChunks, chunksJoin]
      repeat first
        | exact containsSub_left _ _ _
            (pyConcat_mem_contains "\tconflicts = " "\n" pkg.conflicts c hc)
        | apply containsSub_right
  · intro p hp
    constructor
    · rw [generate_pkgbuild_data]
      simp only [pkgbuildChunks, chunksJoin]
      repeat first
        | exact containsSub_left _ _ _
            (pyJoin_mem_contains " " sq sq pkg.provides p hp)
        | apply containsSub_right
    · rw [generate_srcinfo_data]
      simp only [srcinfoChunks, chunksJoin]
      repeat first
        | exact containsSub_left _ _ _
            (pyConcat_mem_contains "\tprovides = " "\n" pkg.provides p hp)
        | apply containsSub_right

/-- C6 witness: the membership-hypothesis parts applied to the klit
package's concrete dependency, conflict and provides entries. -/
theorem artifact_values_shared_except_source_witness :
    (containsSub
      (generate_pkgbuild klitPackage "1.0.0" "https://e/x.zip" "ab").data
      (sq.data ++ ("gtk3".data ++ sq.data)) = true ∧
     containsSub
      (generate_srcinfo klitPackage "1.0.0" "https://e/x.zip" "ab").data
      ("\tdepends = ".data ++ ("gtk3".data ++ "\n".data)) = true) ∧
    (containsSub
      (generate_pkgbuild klitPackage "1.0.0" "https://e/x.zip" "ab").data
      (sq.data ++ ("klit".data ++ sq.data)) = true ∧
     containsSub
      (generate_srcinfo klitPackage "1.0.0" "https://e/x.zip" "ab").data
      ("\tprovides = ".data ++ ("klit".data ++ "\n".data)) = true) :=
  ⟨(artifact_values_shared_except_source klitPackage "1.0.0" "https://e/x.zip"
      "ab").2.2.2.2.2.2.2.1 "gtk3" (by decide),
   (artifact_values_shared_except_source klitPackage "1.0.0" "https://e/x.zip"
      "ab").2.2.2.2.2.2.2.2.2 "klit" (by decide)⟩

set_option maxHeartbeats 2000000 in
/-- C7 counterexample: rendering a recipe with version `1=2` and
re-reading the declared version through the version gate's
`strip().split('=')[1]` scan returns `1`, not `1=2`: the scan
truncates at the second `=`. -/
theorem pkgver_roundtrip_truncates :
    get_current_aur_version
      (some (generate_pkgbuild klitPackage "1=2" "https://e/x.zip" "ab")) =
      some "1" ∧
    ("1" : String) ≠ "1=2" :=
  ⟨by decide, by decide⟩

set_option maxHeartbeats 2000000 in
/-- C7 amended: for every version string containing no `=`, no newline
and no trailing whitespace (and package names without newline, as all
registry names are), rendering a recipe and re-reading the declared
version via the key=value line scan returns exactly that version; so a
forced republish at an equal version yields a recipe whose declared
version equals the upstream version. -/
theorem pkgver_roundtrip_exact (pkg : AURPackage) (v u s : String)
    (hname : '\n' ∉ pkg.name.data)
    (hv : '\n' ∉ v.data)
    (heq : '=' ∉ v.data)
    (hstrip : pyRStrip v.data = v.data) :
    get_current_aur_version (some (generate_pkgbuild pkg v u s)) = some v := by
  have e1 : splitOnChar '\n'
      "# Maintainer: HttpAnimations <httpanimations@proton.me>\n".data =
      ["# Maintainer: HttpAnimations <httpanimations@proton.me>".data, []] := by
    decide
  have e2 : splitOnChar '\n' "# Auto-generated by OpenLyst AUR Updater\n".data =
      ["# Auto-generated by OpenLyst AUR Updater".data, []] := by decide
  have e3 : splitOnChar '\n' "\n".data = [[], []] := by decide
  have e4 : splitOnChar '\n' "pkgname=".data = ["pkgname=".data] := by decide
  have e5 : splitOnChar '\n' "pkgver=".data = ["pkgver=".data] := by decide
  have e6 : splitOnChar '\n' pkg.name.data = [pkg.name.data] :=
    splitOnChar_not_mem _ _ hname
  have e7 : splitOnChar '\n' v.data = [v.data] := splitOnChar_not_mem _ _ hv
  have e8 : splitOnChar '\n' "pkgrel=1\n".data = ["pkgrel=1".data, []] := by
    decide
  have n1 : "pkgver=".data.isPrefixOf
      "# Maintainer: HttpAnimations <httpanimations@proton.me>".data = false := by
    decide
  have n2 : "pkgver=".data.isPrefixOf
      "# Auto-generated by OpenLyst AUR Updater".data = false := by decide
  have n4 : "pkgver=".data.isPrefixOf ("pkgname=".data ++ pkg.name.data) =
      false := rfl
  have n5 : "pkgver=".data.isPrefixOf ("pkgver=".data ++ v.data) = true :=
    List.isPrefixOf_iff_prefix.mpr (List.prefix_append _ _)
  have hstrip2 : pyStripChars ("pkgver=".data ++ v.data) =
      "pkgver=".data ++ v.data := by
    unfold pyStripChars pyLStrip
    have hl : List.dropWhile isPyWs ("pkgver=".data ++ v.data) =
        "pkgver=".data ++ v.data := rfl
    rw [hl, pyRStrip_append _ _ (by decide), hstrip]
  have hsplit : splitOnChar '=' ("pkgver=".data ++ v.data) =
      ["pkgver".data, v.data] := by
    have hshape : ("pkgver=".data ++ v.data) =
        "pkgver".data ++ ('=' :: v.data) := rfl
    have hcons : splitOnChar '=' ('=' :: v.data) =
        [] :: splitOnChar '=' v.data := by
      simp [splitOnChar]
    rw [hshape, splitOnChar_append, splitOnChar_not_mem '=' "pkgver".data
      (by decide), hcons, splitOnChar_not_mem '=' v.data heq]
    simp [glueSplits]
  show findPkgver (splitOnChar '\n' (generate_pkgbuild pkg v u s).data) =
    some v
  rw [generate_pkgbuild_data]
  simp only [pkgbuildChunks, chunksJoin]
  simp only [splitOnChar_append, e1, e2, e3, e4, e5, e6, e7, e8, glueSplits,
    List.nil_append, List.append_nil]
  simp only [findPkgver, n1, n2, n4, n5]
  simp only [List.isPrefixOf, Bool.false_eq_true, if_false, if_true, ite_true,
    ite_false]
  rw [hstrip2, hsplit]

/-- C7 witness: the exact round trip at a concrete well-formed
version. -/
theorem pkgver_roundtrip_exact_witness :
    get_current_aur_version
      (some (generate_pkgbuild klitPackage "1.0.1" "https://e/x.zip" "ab")) =
      some "1.0.1" :=
  pkgver_roundtrip_exact klitPackage "1.0.1" "https://e/x.zip" "ab"
    (by decide) (by decide) (by decide) (by decide)

end AurUpdater
